import Mathlib

/-!
Verification development for the PROJECT_ORACLE trading bot.

Shallow embedding conventions:
* Python `Decimal` / `float` values are modelled as exact rationals (`ℚ`);
  the real-valued reward pipeline (`reward_schemes.py`) is modelled over `ℝ`
  because it uses `tanh`/`log`/`exp`.
* Python `None`-able floats are modelled as `Option ℚ` / `Option ℝ`
  (`none` = `None` or a non-finite float, matching the `math.isfinite` guards).
* Functions that can raise are modelled with `Except String`; callers that
  `try/except` match on the result.
-/

namespace OrderPreflight

/-- Truncation toward zero, the semantics of Python `Decimal.to_integral_exact`
with `rounding=ROUND_DOWN`. -/
def truncQ (x : ℚ) : ℤ := if 0 ≤ x then ⌊x⌋ else ⌈x⌉

/-- `snap_qty` from `core/order_preflight.py`: divide by the step, round the
ratio toward zero (`ROUND_DOWN`), multiply back; zero out below `min_quantity`;
clamp above at `max_quantity`.  (`Decimal.normalize` is the identity on exact
rationals and is omitted.) -/
def snap_qty (quantity step_size : ℚ)
    (min_quantity : Option ℚ := none) (max_quantity : Option ℚ := none) : ℚ :=
  let qty_decimal :=
    if 0 < step_size then (truncQ (quantity / step_size) : ℚ) * step_size
    else quantity
  if min_quantity.elim false (fun m => decide (qty_decimal < m)) then 0
  else
    match max_quantity with
    | some M => if M < qty_decimal then M else qty_decimal
    | none => qty_decimal

/-- `estimate_required_margin` from `core/order_preflight.py`:
`(notional/leverage + notional*(taker_fee+buffer), notional)`, raising on
non-positive leverage. -/
def estimate_required_margin (price quantity : ℚ) (leverage : ℚ := 10)
    (taker_fee : ℚ := 6/10000) (buffer : ℚ := 1/1000) :
    Except String (ℚ × ℚ) :=
  if leverage ≤ 0 then .error "Leverage must be > 0"
  else
    let notional := price * quantity
    .ok (notional / leverage + notional * (taker_fee + buffer), notional)

/-- `get_max_affordable_qty` from `core/order_preflight.py`. -/
def get_max_affordable_qty (available_balance price : ℚ) (leverage : ℚ := 10)
    (taker_fee : ℚ := 6/10000) (buffer : ℚ := 1/1000) : Except String ℚ :=
  if price ≤ 0 then .ok 0
  else if leverage ≤ 0 then .error "Leverage must be > 0"
  else
    let denominator := price * (1 / leverage + taker_fee + buffer)
    if denominator ≤ 0 then .ok 0
    else
      let max_qty := available_balance / denominator
      .ok (if 0 < max_qty then max_qty else 0)

/-- The `reason` component of `preflight_and_resize_qty`'s diagnosis dict
(`_get_zero_qty_reason` collapsed to its case distinction; the human-readable
message strings are logging detail). -/
inductive PreflightReason
  | ok
  | requestedBelowMin
  | insufficientBalance
  | unknownZero
  | exc (msg : String)
  deriving Repr, DecidableEq

/-- `_get_zero_qty_reason` from `core/order_preflight.py`. -/
def get_zero_qty_reason (requested_qty max_affordable_qty min_qty : ℚ) :
    PreflightReason :=
  if 0 < requested_qty ∧ requested_qty < min_qty then .requestedBelowMin
  else if max_affordable_qty < min_qty then .insufficientBalance
  else .unknownZero

/-- `preflight_and_resize_qty` from `core/order_preflight.py`: cap the request
at the affordable maximum, snap to the step grid, and report.  The `except`
handler that converts any raised error into a zero quantity is the
`Except.error` branch. -/
def preflight_and_resize_qty (requested_qty price available_balance : ℚ)
    (leverage : ℚ := 10) (taker_fee : ℚ := 6/10000) (buffer : ℚ := 15/10000)
    (step_size : ℚ := 1/1000) (min_qty : ℚ := 1/1000)
    (max_qty : Option ℚ := none) : ℚ × PreflightReason :=
  match get_max_affordable_qty available_balance price leverage taker_fee buffer with
  | .error e => (0, .exc e)
  | .ok max_qty_by_balance =>
    let target_qty := min requested_qty max_qty_by_balance
    let final_qty := snap_qty target_qty step_size (some min_qty) max_qty
    match estimate_required_margin price final_qty leverage taker_fee buffer with
    | .error e => (0, .exc e)
    | .ok _ =>
      if final_qty = 0 then
        (final_qty, get_zero_qty_reason requested_qty max_qty_by_balance min_qty)
      else (final_qty, .ok)

end OrderPreflight

namespace ActionSchemes

/-- `TradeConfig` from `core/rl/action_schemes.py`. -/
structure TradeConfig where
  taker_fee : ℚ := 55/100000
  slippage_bps : ℚ := 2
  max_leverage : ℚ := 10
  deriving Repr, DecidableEq

/-- `_get_execution_price` from `core/rl/action_schemes.py`. -/
def get_execution_price (price bps : ℚ) (trade_side : ℤ) : ℚ :=
  price * (1 + (trade_side * bps) / 10000)

/-- `_calculate_costs` from `core/rl/action_schemes.py`. -/
def calculate_costs (quantity exec_price fee_rate : ℚ) : ℚ :=
  quantity * exec_price * fee_rate

/-- `_handle_hold`. -/
def handle_hold (price : ℚ) (side : ℤ) (size : ℚ) : ℤ × ℚ × ℚ × ℚ :=
  (side, size, 0, price)

/-- `_handle_open` (actions 1-4): strength 2 for the strong variants,
long for 1/2, short for 3/4. -/
def handle_open (action : ℤ) (price : ℚ) (cfg : TradeConfig)
    (target_notional : ℚ) : ℤ × ℚ × ℚ × ℚ :=
  let strength : ℚ := if action = 2 ∨ action = 4 then 2 else 1
  let qty := target_notional * strength / max price (1/1000000000)
  let new_side : ℤ := if action = 1 ∨ action = 2 then 1 else -1
  let exec_price := get_execution_price price cfg.slippage_bps new_side
  let costs := calculate_costs qty exec_price cfg.taker_fee
  (new_side, qty, costs, exec_price)

/-- `_handle_close`. -/
def handle_close (price : ℚ) (side : ℤ) (size : ℚ) (cfg : TradeConfig) :
    ℤ × ℚ × ℚ × ℚ :=
  if size ≤ 0 then (side, size, 0, price)
  else
    let exec_price := get_execution_price price cfg.slippage_bps (-side)
    (0, 0, calculate_costs size exec_price cfg.taker_fee, exec_price)

/-- `_handle_add`. -/
def handle_add (price : ℚ) (side : ℤ) (size : ℚ) (cfg : TradeConfig) :
    ℤ × ℚ × ℚ × ℚ :=
  if side = 0 then (side, size, 0, price)
  else
    let add_qty := size * (1/2)
    let exec_price := get_execution_price price cfg.slippage_bps side
    (side, size + add_qty, calculate_costs add_qty exec_price cfg.taker_fee,
      exec_price)

/-- `_handle_reduce`. -/
def handle_reduce (price : ℚ) (side : ℤ) (size : ℚ) (cfg : TradeConfig) :
    ℤ × ℚ × ℚ × ℚ :=
  if side = 0 ∨ size ≤ 0 then (side, size, 0, price)
  else
    let reduce_qty := size * (1/2)
    let exec_price := get_execution_price price cfg.slippage_bps (-side)
    let costs := calculate_costs reduce_qty exec_price cfg.taker_fee
    let new_size := max 0 (size - reduce_qty)
    let new_side := if 0 < new_size then side else 0
    (new_side, new_size, costs, exec_price)

/-- `_handle_reverse`. -/
def handle_reverse (price : ℚ) (side : ℤ) (size : ℚ) (cfg : TradeConfig)
    (target_notional : ℚ) : ℤ × ℚ × ℚ × ℚ :=
  if side = 0 then handle_open 1 price cfg target_notional
  else
    let close_exec_price := get_execution_price price cfg.slippage_bps (-side)
    let close_costs := calculate_costs size close_exec_price cfg.taker_fee
    let new_side := -side
    let open_exec_price := get_execution_price price cfg.slippage_bps new_side
    let open_costs := calculate_costs size open_exec_price cfg.taker_fee
    (new_side, size, close_costs + open_costs, open_exec_price)

/-- `apply_action` from `core/rl/action_schemes.py`: dispatch on the discrete
action; `TradeAction(action)` raising `ValueError` for an action outside 0..8
is the first branch, which falls back to the HOLD behaviour. -/
def apply_action (action : ℤ) (price : ℚ) (side : ℤ) (size equity leverage : ℚ)
    (cfg : TradeConfig) (target_notional_frac : ℚ := 1/10) : ℤ × ℚ × ℚ × ℚ :=
  if action < 0 ∨ 8 < action then (side, size, 0, price)
  else
    let target_notional := equity * target_notional_frac * max 1 leverage
    if action = 0 then handle_hold price side size
    else if action = 1 ∨ action = 2 ∨ action = 3 ∨ action = 4 then
      handle_open action price cfg target_notional
    else if action = 5 then handle_close price side size cfg
    else if action = 6 then handle_add price side size cfg
    else if action = 7 then handle_reduce price side size cfg
    else handle_reverse price side size cfg target_notional

/-- `unrealized_pnl` from `core/rl/action_schemes.py`. -/
def unrealized_pnl (side : ℤ) (size entry_price price : ℚ) : ℚ :=
  if side = 0 ∨ size ≤ 0 ∨ entry_price ≤ 0 then 0
  else (price - entry_price) * size * side

end ActionSchemes

namespace ExitProfiles

/-- `ExitProfile` from `core/trader_exit_profiles.py`, with its field
defaults. -/
structure ExitProfile where
  name : String
  tp1_r : ℚ := 1
  tp1_pct : ℚ := 33/100
  tp2_r : ℚ := 2
  tp2_pct : ℚ := 33/100
  runner_pct : ℚ := 34/100
  trail_atr_mult : ℚ := 5/2
  trail_ema_span : ℤ := 20
  sl_atr_mult : ℚ := 3/2
  daily_loss_cut_pct : ℚ := 7/100
  use_heikin_color_exit : Bool := false
  use_ema_cross_exit : Bool := false
  use_vwap_target : Bool := false
  use_td_exhaustion : Bool := false
  deriving Repr, DecidableEq

/-- The compiled-in `PROFILES` table from `core/trader_exit_profiles.py`,
in dict insertion order. -/
def PROFILES : List (String × ExitProfile) :=
  [("hukwoonyam",
     { name := "hukwoonyam", tp1_r := 6/5, tp2_r := 11/5,
       trail_atr_mult := 14/5, sl_atr_mult := 8/5 }),
   ("wonyotti",
     { name := "wonyotti", tp1_r := 1, tp2_r := 9/5,
       trail_atr_mult := 11/5, sl_atr_mult := 7/5,
       use_heikin_color_exit := true }),
   ("td_mark",
     { name := "td_mark", tp1_r := 13/10, tp2_r := 13/5,
       trail_atr_mult := 5/2, sl_atr_mult := 3/2,
       use_td_exhaustion := true }),
   ("volume_pullback",
     { name := "volume_pullback", tp1_r := 1, tp2_r := 2,
       trail_atr_mult := 2, sl_atr_mult := 7/5,
       use_vwap_target := true }),
   ("smart_money_accumulation",
     { name := "smart_money_accumulation", tp1_r := 6/5, tp2_r := 12/5,
       runner_pct := 1/2, tp1_pct := 1/4, tp2_pct := 1/4,
       trail_atr_mult := 27/10, sl_atr_mult := 8/5 }),
   ("snake_ma",
     { name := "snake_ma", tp1_r := 11/10, tp2_r := 2,
       trail_atr_mult := 23/10, sl_atr_mult := 3/2,
       use_ema_cross_exit := true })]

end ExitProfiles

namespace ConfigLoader

open ExitProfiles

/-- A JSON scalar as loaded by Python's `json` module (objects/arrays never
appear as override values for scalar profile fields; a non-scalar value would
fail every numeric coercion like `jnull` does). -/
inductive JValue
  | jstr (s : String)
  | jnum (q : ℚ)
  | jbool (b : Bool)
  | jnull
  deriving Repr, DecidableEq

/-- Split a character list at every occurrence of `sep`. -/
def splitOnChar (sep : Char) : List Char → List (List Char)
  | [] => [[]]
  | c :: rest =>
    let r := splitOnChar sep rest
    if c = sep then [] :: r
    else
      match r with
      | h :: t => (c :: h) :: t
      | [] => [[c]]

/-- Value of a non-empty all-digit character list. -/
def digitsToNat : List Char → Option ℕ
  | [] => none
  | l => if l.all Char.isDigit
         then some (l.foldl (fun acc c => acc * 10 + (c.toNat - 48)) 0)
         else none

/-- Mantissa of a Python float literal: `digits`, `digits.digits`,
`digits.` or `.digits`. -/
def mantissaToRat (l : List Char) : Option ℚ :=
  match splitOnChar '.' l with
  | [i] => (digitsToNat i).map (fun n => (n : ℚ))
  | [i, f] =>
    if i = [] ∧ f = [] then none
    else
      match (if i = [] then some 0 else digitsToNat i),
            (if f = [] then some 0 else digitsToNat f) with
      | some iv, some fv => some ((iv : ℚ) + (fv : ℚ) / 10 ^ f.length)
      | _, _ => none
  | _ => none

/-- Optionally signed integer (for a float literal's exponent). -/
def signedDigitsToInt (l : List Char) : Option ℤ :=
  match l with
  | '-' :: rest => (digitsToNat rest).map (fun n => -(n : ℤ))
  | '+' :: rest => (digitsToNat rest).map (fun n => (n : ℤ))
  | _ => (digitsToNat l).map (fun n => (n : ℤ))

/-- Python `float(s)` on a finite decimal literal (optional sign, decimal
point, exponent).  Non-numeric strings yield `none` (a raised `ValueError`);
the special literals `inf`/`nan` and underscore separators are outside the
modelled domain. -/
def pyFloatOfString (s : String) : Option ℚ :=
  let l := (s.toList).map (fun c => if c = 'E' then 'e' else c)
  let (sign, body) : ℚ × List Char :=
    match l with
    | '-' :: rest => (-1, rest)
    | '+' :: rest => (1, rest)
    | _ => (1, l)
  match splitOnChar 'e' body with
  | [m] => (mantissaToRat m).map (fun q => sign * q)
  | [m, e] =>
    match mantissaToRat m, signedDigitsToInt e with
    | some q, some ev => some (sign * q * (10 : ℚ) ^ ev)
    | _, _ => none
  | _ => none

/-- Python `int(s)` on a string: optional sign and digits only
(`int("0.8")` raises). -/
def pyIntOfString (s : String) : Option ℤ := signedDigitsToInt s.toList

/-- Python `float(value)` applied to a JSON scalar; `none` models a raised
`ValueError`/`TypeError`. -/
def pyFloat : JValue → Option ℚ
  | .jnum q => some q
  | .jbool b => some (if b then 1 else 0)
  | .jstr s => pyFloatOfString s
  | .jnull => none

/-- Python `int(value)` applied to a JSON scalar (`int` of a float truncates
toward zero). -/
def pyInt : JValue → Option ℤ
  | .jnum q => some (OrderPreflight.truncQ q)
  | .jbool b => some (if b then 1 else 0)
  | .jstr s => pyIntOfString s
  | .jnull => none

/-- Python `bool(value)`: truthiness, never raises. -/
def pyBool : JValue → Bool
  | .jnum q => decide (q ≠ 0)
  | .jbool b => b
  | .jstr s => decide (s ≠ "")
  | .jnull => false

/-- Python `str(value)`: never raises.  (The rendering of numbers is
simplified to `num/den`; no claim depends on it.) -/
def pyStr : JValue → String
  | .jstr s => s
  | .jbool b => if b then "True" else "False"
  | .jnull => "None"
  | .jnum q => toString q.num ++ "/" ++ toString q.den

/-- One `setattr(profile, key, original_type(value))` step of
`_apply_strategy_overrides` in `config/config_loader.py`: the override value
is coerced to the type of the existing field; a failed coercion
(`ValueError`/`TypeError`) is logged and leaves the field unchanged; an
unknown key (`hasattr` false) is skipped. -/
def setField (p : ExitProfile) (key : String) (v : JValue) : ExitProfile :=
  match key with
  | "name" => { p with name := pyStr v }
  | "tp1_r" => match pyFloat v with
               | some x => { p with tp1_r := x } | none => p
  | "tp1_pct" => match pyFloat v with
                 | some x => { p with tp1_pct := x } | none => p
  | "tp2_r" => match pyFloat v with
               | some x => { p with tp2_r := x } | none => p
  | "tp2_pct" => match pyFloat v with
                 | some x => { p with tp2_pct := x } | none => p
  | "runner_pct" => match pyFloat v with
                    | some x => { p with runner_pct := x } | none => p
  | "trail_atr_mult" => match pyFloat v with
                        | some x => { p with trail_atr_mult := x } | none => p
  | "trail_ema_span" => match pyInt v with
                        | some x => { p with trail_ema_span := x } | none => p
  | "sl_atr_mult" => match pyFloat v with
                     | some x => { p with sl_atr_mult := x } | none => p
  | "daily_loss_cut_pct" => match pyFloat v with
                            | some x => { p with daily_loss_cut_pct := x }
                            | none => p
  | "use_heikin_color_exit" => { p with use_heikin_color_exit := pyBool v }
  | "use_ema_cross_exit" => { p with use_ema_cross_exit := pyBool v }
  | "use_vwap_target" => { p with use_vwap_target := pyBool v }
  | "use_td_exhaustion" => { p with use_td_exhaustion := pyBool v }
  | _ => p

/-- Replace the entry for `nm` in a profile table. -/
def updateTable (tbl : List (String × ExitProfile)) (nm : String)
    (p : ExitProfile) : List (String × ExitProfile) :=
  tbl.map (fun e => if e.1 = nm then (nm, p) else e)

/-- `_apply_strategy_overrides` from `config/config_loader.py`, given the
`"strategies"` sub-object of `strategy_overrides.json` as an association list
of strategy name to key/value overrides.  Unknown strategy names are skipped;
each value is coerced to the original field's type; a failed coercion only
logs and the remaining overrides still apply. -/
def apply_strategy_overrides
    (strategies : List (String × List (String × JValue)))
    (table : List (String × ExitProfile)) : List (String × ExitProfile) :=
  strategies.foldl
    (fun tbl nameParams =>
      match tbl.lookup nameParams.1 with
      | none => tbl
      | some profile =>
        updateTable tbl nameParams.1
          (nameParams.2.foldl (fun pr kv => setField pr kv.1 kv.2) profile))
    table

end ConfigLoader

namespace CommandManager

/-- A `Command` queue entry from `command_manager.py` (`send_command` appends
`{id, command, params, timestamp}`). -/
structure Command where
  id : String
  command : String
  params : List (String × ConfigLoader.JValue)
  timestamp : ℚ
  deriving Repr, DecidableEq

/-- A parsed result document (`result_{id}.json`). -/
def ResultDoc := List (String × ConfigLoader.JValue)
deriving Repr, DecidableEq

/-- The file-system state the IPC layer works on: the JSON command queue file
(`[]` when the file is missing or corrupt, matching the
`FileNotFoundError/JSONDecodeError` fallback) and the results directory as a
partial map from command id to the parsed content of `result_{id}.json`. -/
structure IpcState where
  queue : List Command
  results : String → Option ResultDoc

/-- Outcome of `await_result`: a parsed result, or the structured timeout
error dict. -/
inductive AwaitOutcome
  | ok (r : ResultDoc)
  | timeoutError
  deriving Repr, DecidableEq

/-- One poll of the `await_result` loop in `command_manager.py` in which the
file-lock is acquired and the `unlink` succeeds: if `result_{cid}.json`
exists it is read, deleted, and its content returned; otherwise the loop
eventually returns the timeout error dict (the intermediate sleeps do not
change a file system no other process writes to). -/
def await_result (fs : IpcState) (cid : String) : AwaitOutcome × IpcState :=
  match fs.results cid with
  | some r =>
    (.ok r, { fs with results := fun i => if i = cid then none else fs.results i })
  | none => (.timeoutError, fs)

/-- `get_command` from `command_manager.py`: pop the oldest (first) queue
entry, write the shortened queue back, and return the popped command;
`none` on an empty or unreadable queue. -/
def get_command (fs : IpcState) : Option Command × IpcState :=
  match fs.queue with
  | [] => (none, fs)
  | c :: rest => (some c, { fs with queue := rest })

end CommandManager

namespace ExitManager

open ExitProfiles

/-- `PositionState` from `exit_manager.py`.  `tp1_price`/`tp2_price`/`sl_price`
are modelled as plain values: `evaluate_and_act` is only called on positions
that went through `register_position`, which sets all three (comparing the
`None` default against a float would raise in Python).  `trail_price` keeps
its `Optional` type because the code handles `None` explicitly
(`ps.trail_price or ±math.inf`). -/
structure PositionState where
  symbol : String
  side : String
  entry_price : ℚ
  qty : ℚ
  strategy : String
  realized_tp1 : Bool := false
  realized_tp2 : Bool := false
  runner_qty : ℚ := 0
  tp1_price : ℚ
  tp2_price : ℚ
  sl_price : ℚ
  trail_price : Option ℚ := none
  deriving Repr, DecidableEq

/-- The action dict returned by `evaluate_and_act`, reduced to its decision
content (the exchange round-trip inside `_place_reduce_order` is I/O;
`order_sent`/`order_failed` both correspond to an order submission here). -/
inductive ExitDecision
  | tpOrder (portion : String) (qty : ℚ)
  | noop (reason : String)
  | closeOrder (reason : String) (qty : ℚ)
  | hold
  deriving Repr, DecidableEq

/-- Whether a decision closes the whole remaining position
(`_close_all` was invoked). -/
def ExitDecision.isClose : ExitDecision → Bool
  | .closeOrder _ _ => true
  | _ => false

/-- `_execute_tp` from `exit_manager.py`: mark the level realized, compute the
partial quantity, `noop` on a non-positive quantity. -/
def execute_tp (profile : ExitProfile) (ps : PositionState) (portion : String) :
    ExitDecision × PositionState :=
  let qp : ℚ × PositionState :=
    if portion = "tp1" then (ps.qty * profile.tp1_pct, { ps with realized_tp1 := true })
    else if portion = "tp2" then (ps.qty * profile.tp2_pct, { ps with realized_tp2 := true })
    else (0, ps)
  if qp.1 ≤ 0 then (.noop "zero_qty", qp.2)
  else (.tpOrder portion qp.1, qp.2)

/-- `_close_all` from `exit_manager.py`: close what remains after any realized
partial exits. -/
def close_all (profile : ExitProfile) (ps : PositionState) (reason : String) :
    ExitDecision × PositionState :=
  let remaining := ps.qty *
    (1 - (if ps.realized_tp1 then profile.tp1_pct else 0)
       - (if ps.realized_tp2 then profile.tp2_pct else 0))
  (.closeOrder reason remaining, ps)

/-- `ExitController.evaluate_and_act` from `exit_manager.py`, with the three
indicator reads (`close`, 14-period ATR, EMA of span `trail_ema_span`)
supplied as inputs.  Note the Python idiom `ps.trail_price or -math.inf`:
a stored trail of exactly `0.0` is falsy and is treated like `None`. -/
def evaluate_and_act (profile : ExitProfile) (ps : PositionState)
    (current_price atr_val ema_val : ℚ) : ExitDecision × PositionState :=
  if ¬ps.realized_tp1 ∧
      ((ps.side = "long" ∧ ps.tp1_price ≤ current_price) ∨
       (ps.side = "short" ∧ current_price ≤ ps.tp1_price)) then
    execute_tp profile ps "tp1"
  else if ps.realized_tp1 ∧ ¬ps.realized_tp2 ∧
      ((ps.side = "long" ∧ ps.tp2_price ≤ current_price) ∨
       (ps.side = "short" ∧ current_price ≤ ps.tp2_price)) then
    execute_tp profile ps "tp2"
  else
    let trail_buffer := profile.trail_atr_mult * atr_val
    if ps.side = "long" then
      let new_trail :=
        match ps.trail_price with
        | some t => if t = 0 then ema_val - trail_buffer
                    else max t (ema_val - trail_buffer)
        | none => ema_val - trail_buffer
      if current_price ≤ new_trail then close_all profile ps "trail_stop_long"
      else
        let ps1 := { ps with trail_price := some new_trail }
        if current_price ≤ ps1.sl_price then
          close_all profile ps1 "stop_loss_manual"
        else (.hold, ps1)
    else
      let new_trail :=
        match ps.trail_price with
        | some t => if t = 0 then ema_val + trail_buffer
                    else min t (ema_val + trail_buffer)
        | none => ema_val + trail_buffer
      if new_trail ≤ current_price then close_all profile ps "trail_stop_short"
      else
        let ps1 := { ps with trail_price := some new_trail }
        if ps1.side = "short" ∧ ps1.sl_price ≤ current_price then
          close_all profile ps1 "stop_loss_manual"
        else (.hold, ps1)

/-- The stored trail is not exactly `0.0` (so the Python `or` fallback does
not discard it). -/
def trailNonZero (ps : PositionState) : Bool :=
  match ps.trail_price with
  | some t => decide (t ≠ 0)
  | none => true

/-- Run `evaluate_and_act` over a list of `(close, ATR, EMA)` observations,
threading the mutated position state.  The boolean records that every call
returned a non-closing decision and started from a state whose stored trail
was not exactly `0`. -/
def evalSeq (profile : ExitProfile) (ps : PositionState) :
    List (ℚ × ℚ × ℚ) → PositionState × Bool
  | [] => (ps, true)
  | obs :: rest =>
    let dp := evaluate_and_act profile ps obs.1 obs.2.1 obs.2.2
    let tailRun := evalSeq profile dp.2 rest
    (tailRun.1, (!dp.1.isClose && trailNonZero ps) && tailRun.2)

/-- Comparison of stored trail prices, `none` (no trail yet) below
everything: `trailLeB a b` means the trail moved from `a` to `b` without
loosening a long position's stop. -/
def trailLeB : Option ℚ → Option ℚ → Bool
  | none, _ => true
  | some _, none => false
  | some a, some b => decide (a ≤ b)

/-- Dual comparison for short positions (trail only ever moves down). -/
def trailGeB : Option ℚ → Option ℚ → Bool
  | none, _ => true
  | some _, none => false
  | some a, some b => decide (b ≤ a)

end ExitManager

namespace TradingEnv

/-- The episode end index set by `TradingEnv._reset_episode_indices`:
`min(N - 2, start_idx + max_steps)` (natural subtraction; the constructor
guarantees `N ≥ window + 10`). -/
def end_idx_of (N start_idx max_steps : ℕ) : ℕ :=
  min (N - 2) (start_idx + max_steps)

/-- `TradingEnv._check_termination`: `(terminated, truncated)` with
`terminated = max_drawdown ≥ risk_dd_limit` and `truncated = i ≥ end_idx`. -/
def check_termination (max_drawdown risk_dd_limit : ℚ) (i end_idx : ℕ) :
    Bool × Bool :=
  (decide (risk_dd_limit ≤ max_drawdown), decide (end_idx ≤ i))

/-- `EnvConfig.risk_dd_limit` default. -/
def default_risk_dd_limit : ℚ := 3/10

/-- `EnvConfig.max_steps` default. -/
def default_max_steps : ℕ := 2000

end TradingEnv

namespace RewardSchemes

noncomputable section
open scoped Classical

/-- `RewardWeights` from `core/rl/reward_schemes.py`, with its defaults. -/
structure RewardWeights where
  pnl : ℝ := 1
  realized : ℝ := 1/2
  cost : ℝ := 1
  risk : ℝ := 1/2
  hold : ℝ := 0
  churn : ℝ := 1/5
  slip : ℝ := 3/5
  funding : ℝ := 2/5
  loss_cut : ℝ := 2
  drawdown : ℝ := 3/10
  profile : ℝ := 3/10
  scale : ℝ := 1

/-- `ShapingContext` from `core/rl/reward_schemes.py`.  Fields whose Python
default is `math.nan` are modelled as `Option ℝ` with `none` for a
non-finite value (matching the `math.isfinite` guards through `_f`). -/
structure ShapingContext where
  side : ℤ := 0
  position_value : ℝ := 0
  pos_age_bars : ℤ := 0
  flip : ℤ := 0
  atr_pct : Option ℝ := none
  ema20 : Option ℝ := none
  ema50 : Option ℝ := none
  rsi14 : Option ℝ := none
  td_up : ℝ := 0
  td_down : ℝ := 0
  bb_width : Option ℝ := none
  vol_spike : Option ℝ := none
  mom_5 : ℝ := 0
  mom_60 : ℝ := 0
  ha_up : ℤ := 0
  slippage_bps : Option ℝ := none
  expected_price : Option ℝ := none
  fill_price : Option ℝ := none
  funding_rate_8h : Option ℝ := none
  step_minutes : ℝ := 1
  daily_pnl_usdt : ℝ := 0
  daily_loss_limit_usdt : ℝ := 0
  daily_drawdown_pct : Option ℝ := none

/-- `_f` from `core/rl/reward_schemes.py`: a non-finite or missing value
falls back to the default. -/
def _f (x : Option ℝ) (default : ℝ := 0) : ℝ := x.getD default

/-- `_clip` from `core/rl/reward_schemes.py`. -/
def _clip (x lo hi : ℝ) : ℝ := if x < lo then lo else if hi < x then hi else x

/-- `_softplus` from `core/rl/reward_schemes.py` (`log1p(exp x)` with
overflow guards). -/
def _softplus (x : ℝ) : ℝ :=
  if 50 < x then x else if x < -50 then 0 else Real.log (1 + Real.exp x)

/-- `potential_snake_ma`. -/
def potential_snake_ma (ctx : ShapingContext) : ℝ :=
  let e20 := _f ctx.ema20 0
  let e50 := _f ctx.ema50 0
  if e20 = 0 ∧ e50 = 0 then 0
  else if (e50 < e20 ∧ 0 ≤ ctx.side) ∨ (e20 < e50 ∧ ctx.side ≤ 0) then 1/2
  else -(1/5)

/-- `potential_wonyotti`. -/
def potential_wonyotti (ctx : ShapingContext) : ℝ :=
  let r := _f ctx.rsi14 50
  if 0 < ctx.side ∧ r ≤ 35 then 1/2
  else if ctx.side < 0 ∧ 65 ≤ r then 1/2
  else -(1/10)

/-- `potential_td_mark`. -/
def potential_td_mark (ctx : ShapingContext) : ℝ :=
  if 8 ≤ ctx.td_up ∧ 0 < ctx.side then 2/5
  else if 8 ≤ ctx.td_down ∧ ctx.side < 0 then 2/5
  else 0

/-- `potential_smart_money`. -/
def potential_smart_money (ctx : ShapingContext) : ℝ :=
  let bw := _f ctx.bb_width 1
  let vs := _f ctx.vol_spike 1
  if bw < 3/100 ∧ 3/2 < vs then
    let pref : ℤ := if ctx.ha_up = 1 then 1 else -1
    if ctx.side = pref then 2/5 else -(1/10)
  else 0

/-- `potential_hukwoonyam`. -/
def potential_hukwoonyam (ctx : ShapingContext) : ℝ :=
  let s := ctx.mom_5 + ctx.mom_60
  if 0 < s ∧ 0 < ctx.side then 3/10
  else if s < 0 ∧ ctx.side < 0 then 3/10
  else 0

/-- The `POTENTIALS` table with `POTENTIALS.get(profile, lambda *_: 0.0)`
lookup semantics. -/
def potentials (profile : String) : ShapingContext → ℝ :=
  if profile = "snake_ma" then potential_snake_ma
  else if profile = "wonyotti" then potential_wonyotti
  else if profile = "td_mark" then potential_td_mark
  else if profile = "smart_money_accumulation" then potential_smart_money
  else if profile = "hukwoonyam" then potential_hukwoonyam
  else fun _ => 0

/-- `_slippage_bps`. -/
def _slippage_bps (ctx : ShapingContext) : ℝ :=
  match ctx.slippage_bps with
  | some b => max 0 b
  | none =>
    match ctx.expected_price, ctx.fill_price with
    | some e, some fp =>
      if 0 < e then max 0 (|(fp - e) / e| * 10000) else max 0 0
    | _, _ => max 0 0

/-- `_funding_pay_pct`. -/
def _funding_pay_pct (ctx : ShapingContext) : ℝ :=
  match ctx.funding_rate_8h with
  | none => 0
  | some rate8 =>
    if rate8 = 0 then 0
    else
      let step_h := max 0 (ctx.step_minutes / 60)
      let pay : ℝ :=
        if 0 < ctx.side ∧ 0 < rate8 then rate8 * (step_h / 8) * 100
        else if ctx.side < 0 ∧ rate8 < 0 then |rate8| * (step_h / 8) * 100
        else 0
      max 0 pay

/-- `_daily_loss_barrier`. -/
def _daily_loss_barrier (ctx : ShapingContext) : ℝ :=
  let limit := ctx.daily_loss_limit_usdt
  if limit ≤ 0 then 0
  else
    let r := max 0 (-ctx.daily_pnl_usdt / max (1/1000000000) limit)
    _softplus (r - 7/10)

/-- `compute_reward` from `core/rl/reward_schemes.py`: weighted base terms,
contextual penalties, potential-based shaping, then scale → `tanh` →
clip post-processing.  Returns `(reward, Φ_t)`. -/
def compute_reward (weights : RewardWeights)
    (delta_equity realized_pnl costs risk_penalty hold_penalty : ℝ)
    (profile : String) (ctx : Option ShapingContext := none)
    (gamma : ℝ := 99/100) (last_potential : ℝ := 0)
    (clip : ℝ := 1) (tanh_scale : ℝ := 1) : ℝ × ℝ :=
  let c_cost := |costs|
  let r_risk := |risk_penalty|
  let r_hold := |hold_penalty|
  let pens : ℝ × ℝ × ℝ × ℝ × ℝ :=
    match ctx with
    | none => (0, 0, 0, 0, 0)
    | some c =>
      let age := max 0 c.pos_age_bars
      let churn_pen : ℝ :=
        if c.flip = 1 ∧ age ≤ 2 then 1 else if age ≤ 1 then 1/2 else 0
      let slip_pen := _slippage_bps c / 10000
      let fund_pen := _funding_pay_pct c / 100
      let loss_bar := _daily_loss_barrier c
      let dd_pen : ℝ :=
        match c.daily_drawdown_pct with
        | some d => if 0 < d then d / 100 else 0
        | none => 0
      (churn_pen, slip_pen, fund_pen, loss_bar, dd_pen)
  let base := weights.pnl * delta_equity + weights.realized * realized_pnl
    - weights.cost * c_cost - weights.risk * r_risk - weights.hold * r_hold
    - weights.churn * pens.1 - weights.slip * pens.2.1
    - weights.funding * pens.2.2.1 - weights.loss_cut * pens.2.2.2.1
    - weights.drawdown * pens.2.2.2.2
  let sp : ℝ × ℝ :=
    match ctx with
    | none => (base, 0)
    | some c =>
      if weights.profile ≤ 0 then (base, 0)
      else
        let phi := potentials profile c
        let gammaC := _clip gamma 0 (999/1000)
        (base + weights.profile * (phi - gammaC * last_potential), phi)
  let s1 := sp.1 * (if weights.scale = 0 then 1 else weights.scale)
  let s2 := if 0 < tanh_scale then Real.tanh (s1 * tanh_scale) else s1
  let s3 := if 0 < clip then _clip s2 (-|clip|) |clip| else s2
  (s3, sp.2)

end

end RewardSchemes

namespace CommandManager

/-- Concrete IPC file-system state used to exercise the IPC theorems: one
queued command and one result file. -/
def exampleCmd : Command := { id := "c1", command := "ping", params := [], timestamp := 0 }

/-- Example state: queue `[exampleCmd]`, a result file for id `c1`. -/
def exampleFs : IpcState :=
  { queue := [exampleCmd],
    results := fun i => if i = "c1" then some [] else none }

/-- `exampleFs` after its `c1` result file has been read and deleted. -/
def exampleFsAfterRead : IpcState :=
  { exampleFs with results := fun i => if i = "c1" then none else exampleFs.results i }

/-- `exampleFs` after its single queued command has been popped. -/
def exampleFsAfterPop : IpcState := { exampleFs with queue := [] }

end CommandManager

namespace ExitManager

/-- A profile with the `ExitProfile` field defaults
(`trail_atr_mult = 2.5`), used for concrete runs. -/
def cexProfile : ExitProfiles.ExitProfile := { name := "cex" }

/-- A long position whose TP levels are already realized and whose stored
trailing stop sits at exactly `0.0` — the value Python's
`ps.trail_price or -math.inf` treats as unset. -/
def cexPs : PositionState :=
  { symbol := "BTCUSDT", side := "long", entry_price := 1, qty := 1,
    strategy := "cex", realized_tp1 := true, realized_tp2 := true,
    tp1_price := 100, tp2_price := 200, sl_price := -100,
    trail_price := some 0 }

/-- A long position with a nonzero stored trail, used to exercise the
monotone-trail theorem on a concrete two-step run. -/
def wPs : PositionState :=
  { symbol := "BTCUSDT", side := "long", entry_price := 1, qty := 1,
    strategy := "w", realized_tp1 := true, realized_tp2 := true,
    tp1_price := 1000, tp2_price := 2000, sl_price := -100,
    trail_price := some 1 }

end ExitManager

section Theorems

open OrderPreflight ActionSchemes ExitProfiles ConfigLoader CommandManager
open ExitManager TradingEnv RewardSchemes

/-- Helper: `_clip x lo hi` lands in `[lo, hi]` whenever `lo ≤ hi`. -/
theorem clip_mem_Icc (x lo hi : ℝ) (h : lo ≤ hi) :
    lo ≤ RewardSchemes._clip x lo hi ∧ RewardSchemes._clip x lo hi ≤ hi := by
  unfold RewardSchemes._clip
  split
  · exact ⟨le_refl _, h⟩
  · split
    · exact ⟨h, le_refl _⟩
    · constructor <;> [exact le_of_not_gt (by assumption); exact le_of_not_gt (by assumption)]

/-- C5: for every finite combination of inputs and the default
post-processing parameters (`clip = 1`, `tanh_scale = 1`), the scalar reward
returned by `compute_reward` lies within `[-clip, +clip] = [-1, 1]`. -/
theorem compute_reward_bounded (w : RewardWeights)
    (delta_equity realized_pnl costs risk_penalty hold_penalty : ℝ)
    (profile : String) (ctx : Option ShapingContext) (gamma last_potential : ℝ) :
    -1 ≤ (compute_reward w delta_equity realized_pnl costs risk_penalty
            hold_penalty profile ctx gamma last_potential 1 1).1 ∧
    (compute_reward w delta_equity realized_pnl costs risk_penalty
            hold_penalty profile ctx gamma last_potential 1 1).1 ≤ 1 := by
  unfold compute_reward
  simp only [if_pos (show (0:ℝ) < 1 from one_pos), abs_one]
  exact clip_mem_Icc _ _ _ (by norm_num)

/-- C8: every compiled-in exit profile satisfies
`0 < tp1_r < tp2_r` and `0 < sl_atr_mult`. -/
theorem profiles_tp_ordering :
    (ExitProfiles.PROFILES.all fun pr =>
      decide (0 < pr.2.tp1_r ∧ pr.2.tp1_r < pr.2.tp2_r ∧ 0 < pr.2.sl_atr_mult)) = true := by
  simp only [ExitProfiles.PROFILES, List.all_cons, List.all_nil,
    Bool.and_eq_true, decide_eq_true_eq]
  norm_num

/-- C9: an action outside the valid range 0..8 behaves as HOLD: side and
size unchanged, zero cost, execution price equal to the input price
(`TradeAction(action)` raises `ValueError`, which is caught). -/
theorem apply_action_invalid_is_hold (action : ℤ) (price : ℚ) (side : ℤ)
    (size equity leverage : ℚ) (cfg : TradeConfig) (tnf : ℚ)
    (h : action < 0 ∨ 8 < action) :
    apply_action action price side size equity leverage cfg tnf
      = (side, size, 0, price) := by
  unfold apply_action
  rw [if_pos h]

/-- Witness for C9 at the concrete invalid action 9. -/
theorem apply_action_invalid_is_hold_witness :
    apply_action 9 100 1 2 1000 10 {} (1/10) = (1, 2, 0, 100) :=
  apply_action_invalid_is_hold 9 100 1 2 1000 10 {} (1/10) (Or.inr (by norm_num))

/-- C10: `unrealized_pnl` returns 0 when the position is flat, the size is
non-positive, or the entry price is non-positive; otherwise it returns
`(price - entry_price) * size * side`. -/
theorem unrealized_pnl_spec (side : ℤ) (size entry_price price : ℚ) :
    ((side = 0 ∨ size ≤ 0 ∨ entry_price ≤ 0) →
      unrealized_pnl side size entry_price price = 0) ∧
    (side ≠ 0 → 0 < size → 0 < entry_price →
      unrealized_pnl side size entry_price price
        = (price - entry_price) * size * side) := by
  unfold unrealized_pnl
  constructor
  · intro h
    rw [if_pos h]
  · intro h1 h2 h3
    rw [if_neg (by push_neg; exact ⟨h1, h2, h3⟩)]

/-- Witness for C10 at a concrete long position. -/
theorem unrealized_pnl_spec_witness :
    unrealized_pnl 1 2 3 5 = (5 - 3) * 2 * 1 :=
  (unrealized_pnl_spec 1 2 3 5).2 (by norm_num) (by norm_num) (by norm_num)

/-- C4: with enough data (`start_idx + max_steps + 2 ≤ N`, so that
`end_idx = start_idx + max_steps`), `_check_termination` reports
`terminated` exactly when the tracked max drawdown has reached
`risk_dd_limit`; and when the drawdown never reaches the limit, the step at
index `start_idx + k` is flagged `truncated` (and not `terminated`) exactly
once `k ≥ max_steps` — i.e. exactly `max_steps` steps past the episode start
index. -/
theorem episode_termination (N start_idx max_steps : ℕ) (risk_dd_limit : ℚ)
    (dd : ℕ → ℚ) (hN : start_idx + max_steps + 2 ≤ N) :
    (∀ k, ((check_termination (dd k) risk_dd_limit (start_idx + k)
              (end_idx_of N start_idx max_steps)).1 = true ↔ risk_dd_limit ≤ dd k)) ∧
    ((∀ k, dd k < risk_dd_limit) → ∀ k,
      ((check_termination (dd k) risk_dd_limit (start_idx + k)
          (end_idx_of N start_idx max_steps)).2 = true ↔ max_steps ≤ k) ∧
      (check_termination (dd k) risk_dd_limit (start_idx + k)
          (end_idx_of N start_idx max_steps)).1 = false) := by
  have he : end_idx_of N start_idx max_steps = start_idx + max_steps := by
    unfold end_idx_of
    omega
  constructor
  · intro k
    simp [check_termination]
  · intro hdd k
    refine ⟨?_, ?_⟩
    · rw [he]
      simp [check_termination]
    · simp [check_termination]
      exact hdd k

/-- Witness for C4: a 10-row data set, start index 1, `max_steps = 5`,
zero drawdown: the step at index `1 + 5` is truncated, not terminated. -/
theorem episode_termination_witness :
    ((check_termination 0 (3/10) (1 + 5) (end_idx_of 10 1 5)).2 = true ↔ 5 ≤ 5) ∧
    (check_termination 0 (3/10) (1 + 5) (end_idx_of 10 1 5)).1 = false :=
  (episode_termination 10 1 5 (3/10) (fun _ => 0) (by norm_num)).2
    (fun _ => by norm_num) 5

/-- C4, counterexample: with a short data set (N = 10 rows, start index 1)
and the default `max_steps = 2000`, the episode end index is
`min(N - 2, start + max_steps) = 8`, so the step at index `1 + 7` is already
flagged truncated after only 7 steps — before `max_steps` steps have
elapsed, refuting "truncates after exactly max_steps steps" as universally
stated. -/
theorem episode_truncates_early :
    (check_termination 0 (3/10) (1 + 7) (end_idx_of 10 1 default_max_steps)).2
      = true ∧
    (check_termination 0 (3/10) (1 + 7) (end_idx_of 10 1 default_max_steps)).1
      = false ∧
    7 < default_max_steps := by
  refine ⟨?_, ?_, by norm_num [default_max_steps]⟩
  · simp [check_termination, end_idx_of, default_max_steps]
  · simp [check_termination]

/-- C3: a successful `await_result` deletes the result file for the command
id, so a second read attempt finds no result file and times out; and
`get_command` removes the popped command from the queue before returning it,
so each queued command is delivered at most once (the multiplicity of the
popped command in the stored queue drops by one). -/
theorem ipc_consume_once (fs : IpcState) (cid : String) (r : ResultDoc)
    (fs1 : IpcState) (c : Command) (fs2 : IpcState) :
    (await_result fs cid = (.ok r, fs1) →
      fs1.results cid = none ∧ await_result fs1 cid = (.timeoutError, fs1)) ∧
    (get_command fs = (some c, fs2) →
      fs.queue = c :: fs2.queue ∧
      fs2.queue.count c + 1 = fs.queue.count c) := by
  constructor
  · intro h
    unfold await_result at h
    revert h
    cases hres : fs.results cid with
    | none => intro h; cases h
    | some r0 =>
      intro h
      have h2 := congrArg Prod.snd h
      simp only at h2
      subst h2
      constructor
      · simp
      · unfold await_result
        simp
  · intro h
    unfold get_command at h
    revert h
    cases hq : fs.queue with
    | nil => intro h; cases h
    | cons c0 rest =>
      intro h
      have hc : c0 = c := by
        have := congrArg Prod.fst h
        simpa using this
      have h2 := congrArg Prod.snd h
      simp only at h2
      subst h2 hc
      simp [hq, List.count_cons]

/-- Witness for C3 on a concrete file-system state with one queued command
and one result file. -/
theorem ipc_consume_once_witness :
    (exampleFsAfterRead.results "c1" = none ∧
      await_result exampleFsAfterRead "c1" = (.timeoutError, exampleFsAfterRead)) ∧
    (exampleFs.queue = exampleCmd :: exampleFsAfterPop.queue ∧
      exampleFsAfterPop.queue.count exampleCmd + 1 = exampleFs.queue.count exampleCmd) := by
  have h := ipc_consume_once exampleFs "c1" [] exampleFsAfterRead exampleCmd exampleFsAfterPop
  exact ⟨h.1 rfl, h.2 rfl⟩

/-- C6, counterexample: `ROUND_DOWN` truncates toward zero, so for the
negative quantity `-0.0015` and step `0.001` the snapped value `-0.001` is
*greater* than the input, refuting "less than or equal to the input
quantity" as universally stated. -/
theorem snap_qty_counterexample :
    snap_qty (-3/2000) (1/1000) none none = -1/1000 ∧
    ¬ ((-1/1000 : ℚ) ≤ -3/2000) := by
  constructor
  · unfold snap_qty truncQ
    have hdiv : ((-3 : ℚ)/2000) / (1/1000) = -(3/2) := by norm_num
    rw [hdiv]
    have hceil : (⌈-(3/2 : ℚ)⌉ : ℤ) = -1 := by
      norm_num [Int.ceil_eq_iff]
    norm_num [hceil]
  · norm_num

/-- C6, amended: for every `step > 0`, `snap_qty` returns an exact integer
multiple of `step`; the result is ≤ the input quantity whenever the quantity
is nonnegative (for negative quantities `ROUND_DOWN` truncates toward zero,
i.e. upward); and when a minimum quantity is given and the snapped quantity
is below it, the result is exactly 0. -/
theorem snap_qty_spec (qty step minq : ℚ) (hstep : 0 < step) :
    (∃ k : ℤ, snap_qty qty step none none = (k : ℚ) * step) ∧
    (0 ≤ qty → snap_qty qty step none none ≤ qty) ∧
    (snap_qty qty step none none < minq →
      snap_qty qty step (some minq) none = 0) := by
  refine ⟨?_, ?_, ?_⟩
  · exact ⟨truncQ (qty / step), by unfold snap_qty; simp [if_pos hstep]⟩
  · intro hq
    unfold snap_qty truncQ
    simp only [if_pos hstep, Option.elim, Bool.false_eq_true, if_false]
    have h0 : 0 ≤ qty / step := div_nonneg hq hstep.le
    rw [if_pos h0]
    calc (⌊qty / step⌋ : ℚ) * step ≤ (qty / step) * step :=
          mul_le_mul_of_nonneg_right (Int.floor_le _) hstep.le
      _ = qty := div_mul_cancel₀ _ hstep.ne.symm
  · intro hlt
    unfold snap_qty at hlt ⊢
    simp only [if_pos hstep] at hlt ⊢
    simp only [Option.elim] at hlt ⊢
    rw [if_pos]
    simpa using hlt

/-- Witness for C6 (amended) at quantity `0.0025`, step `0.001`: the snap is
below the quantity, and with a minimum of `0.003` the result zeroes out. -/
theorem snap_qty_spec_witness :
    snap_qty (1/400) (1/1000) none none ≤ 1/400 ∧
    snap_qty (1/400) (1/1000) (some (3/1000)) none = 0 := by
  have h := snap_qty_spec (1/400) (1/1000) (3/1000) (by norm_num)
  have heval : snap_qty (1/400) (1/1000) none none = 1/500 := by
    unfold snap_qty truncQ
    have hdiv : (1/400 : ℚ) / (1/1000) = 5/2 := by norm_num
    rw [hdiv]
    have hfl : (⌊(5/2 : ℚ)⌋ : ℤ) = 2 := by
      rw [Int.floor_eq_iff]
      norm_num
    norm_num [hfl]
  refine ⟨h.2.1 (by norm_num), h.2.2 ?_⟩
  rw [heval]
  norm_num

/-- Helper for C1: the step-snapped value of a target `t` is bounded by any
nonnegative bound on `t`. -/
theorem snap_step_le_bound (t step m : ℚ) (hm : 0 ≤ m) (ht : t ≤ m) :
    (if 0 < step then (truncQ (t / step) : ℚ) * step else t) ≤ m := by
  split
  · rename_i hstep
    unfold truncQ
    split
    · calc (⌊t / step⌋ : ℚ) * step ≤ (t / step) * step :=
            mul_le_mul_of_nonneg_right (Int.floor_le _) hstep.le
        _ = t := div_mul_cancel₀ _ hstep.ne.symm
        _ ≤ m := ht
    · rename_i hneg
      push_neg at hneg
      have hceil : (⌈t / step⌉ : ℤ) ≤ 0 :=
        Int.ceil_le.mpr (by exact_mod_cast hneg.le)
      have h1 : ((⌈t / step⌉ : ℤ) : ℚ) ≤ 0 := by exact_mod_cast hceil
      have h2 : ((⌈t / step⌉ : ℤ) : ℚ) * step ≤ 0 * step :=
        mul_le_mul_of_nonneg_right h1 hstep.le
      have h3 : ((⌈t / step⌉ : ℤ) : ℚ) * step ≤ 0 := by simpa using h2
      linarith
  · exact ht

/-- Helper for C1: `snap_qty` (with a minimum and an optional maximum) never
exceeds a nonnegative bound on its target quantity. -/
theorem snap_qty_le_bound (t step minq : ℚ) (maxq : Option ℚ) (m : ℚ)
    (hm : 0 ≤ m) (ht : t ≤ m) : snap_qty t step (some minq) maxq ≤ m := by
  have hbound := snap_step_le_bound t step m hm ht
  unfold snap_qty
  simp only [Option.elim]
  set s0 : ℚ := if 0 < step then (truncQ (t / step) : ℚ) * step else t with hs0
  cases maxq with
  | none =>
    split_ifs with h1
    · exact hm
    · exact hbound
  | some M =>
    dsimp only
    split_ifs with h1 h2
    · exact hm
    · exact le_trans h2.le hbound
    · exact hbound

/-- C1: for every price > 0, leverage ≥ 1 and balance ≥ 0 (and any
nonnegative fee and buffer, any step/min/max), the quantity returned by
`preflight_and_resize_qty` is affordable: the required margin computed by
`estimate_required_margin` for that quantity is at most the available
balance (exactly, in exact rational arithmetic). -/
theorem preflight_affordable
    (requested_qty price available_balance leverage taker_fee buffer
      step_size min_qty : ℚ) (max_qty : Option ℚ)
    (hp : 0 < price) (hl : 1 ≤ leverage) (hb : 0 ≤ available_balance)
    (hf : 0 ≤ taker_fee) (hbuf : 0 ≤ buffer) :
    ∀ required_margin notional,
      estimate_required_margin price
        (preflight_and_resize_qty requested_qty price available_balance leverage
          taker_fee buffer step_size min_qty max_qty).1
        leverage taker_fee buffer = .ok (required_margin, notional) →
      required_margin ≤ available_balance := by
  intro required_margin notional hest
  have hlev : (0:ℚ) < leverage := lt_of_lt_of_le one_pos hl
  set d : ℚ := price * (1 / leverage + taker_fee + buffer) with hd_def
  have hd : 0 < d := by
    apply mul_pos hp
    have : (0:ℚ) < 1 / leverage := by positivity
    linarith
  set m : ℚ := available_balance / d with hm_def
  have hm : 0 ≤ m := div_nonneg hb hd.le
  have hifm : (if 0 < m then m else 0) = m := by
    rcases lt_or_eq_of_le hm with h | h
    · rw [if_pos h]
    · rw [if_neg (by rw [← h]; exact lt_irrefl 0), ← h]
  have hga : get_max_affordable_qty available_balance price leverage taker_fee buffer
      = .ok m := by
    unfold get_max_affordable_qty
    rw [if_neg (not_le.mpr hp), if_neg (not_le.mpr hlev), if_neg (not_le.mpr hd)]
    show Except.ok (if 0 < m then m else 0) = Except.ok m
    rw [hifm]
  set f : ℚ := snap_qty (min requested_qty m) step_size (some min_qty) max_qty
    with hf_def
  have hest_ok : estimate_required_margin price f leverage taker_fee buffer
      = .ok (price * f / leverage + price * f * (taker_fee + buffer), price * f) := by
    unfold estimate_required_margin
    rw [if_neg (not_le.mpr hlev)]
  have hpre : (preflight_and_resize_qty requested_qty price available_balance
      leverage taker_fee buffer step_size min_qty max_qty).1 = f := by
    unfold preflight_and_resize_qty
    rw [hga]
    simp only
    rw [← hf_def, hest_ok]
    simp only
    split <;> rfl
  rw [hpre] at hest
  rw [hest_ok] at hest
  simp only [Except.ok.injEq, Prod.mk.injEq] at hest
  have hrm : required_margin = f * d := by
    rw [← hest.1, hd_def]
    field_simp
    ring
  have hfm : f ≤ m := snap_qty_le_bound _ _ _ _ m hm (min_le_right _ _)
  have hmd : m * d = available_balance := div_mul_cancel₀ _ hd.ne.symm
  rw [hrm, ← hmd]
  exact mul_le_mul_of_nonneg_right hfm hd.le

/-- Helper for C1's witness: the affordable maximum at price 60000, balance
100, leverage 10 with the source defaults for fee (0.0006) and
buffer (0.0015). -/
theorem preflight_max_qty_eval :
    get_max_affordable_qty 100 60000 10 (6/10000) (15/10000)
      = .ok (50/3063) := by
  unfold get_max_affordable_qty
  norm_num

/-- Helper for C1's witness: the snapped target quantity. -/
theorem preflight_snap_eval :
    snap_qty (min (1/100) (50/3063)) (1/1000) (some (1/1000)) none
      = 1/100 := by
  have hmin : min (1/100 : ℚ) (50/3063) = 1/100 := by
    rw [min_def]
    norm_num
  rw [hmin]
  unfold snap_qty truncQ
  have hdiv : (1/100 : ℚ) / (1/1000) = 10 := by norm_num
  rw [hdiv]
  have hfl : (⌊(10:ℚ)⌋ : ℤ) = 10 := by
    rw [Int.floor_eq_iff]
    norm_num
  norm_num [hfl]

/-- Helper for C1's witness: the final quantity of the concrete preflight. -/
theorem preflight_qty_eval :
    (preflight_and_resize_qty (1/100) 60000 100 10 (6/10000) (15/10000)
      (1/1000) (1/1000) none).1 = 1/100 := by
  unfold preflight_and_resize_qty
  rw [preflight_max_qty_eval]
  simp only
  rw [preflight_snap_eval]
  unfold estimate_required_margin
  rw [if_neg (by norm_num : ¬(10:ℚ) ≤ 0)]
  simp only
  norm_num

/-- Helper for C1's witness: the margin estimate of the concrete preflight
quantity (61.26 USDT on a 600 USDT notional). -/
theorem preflight_margin_eval :
    estimate_required_margin 60000
      (preflight_and_resize_qty (1/100) 60000 100 10 (6/10000) (15/10000)
        (1/1000) (1/1000) none).1 10 (6/10000) (15/10000)
      = .ok (3063/50, 600) := by
  rw [preflight_qty_eval]
  unfold estimate_required_margin
  rw [if_neg (by norm_num : ¬(10:ℚ) ≤ 0)]
  norm_num

/-- Witness for C1: requesting 0.01 BTC at 60000 with 100 USDT of balance
and 10x leverage yields a quantity whose required margin (61.26) is within
the balance. -/
theorem preflight_affordable_witness :
    estimate_required_margin 60000
        (preflight_and_resize_qty (1/100) 60000 100 10 (6/10000) (15/10000)
          (1/1000) (1/1000) none).1 10 (6/10000) (15/10000)
      = .ok (3063/50, 600) ∧ (3063/50 : ℚ) ≤ 100 :=
  ⟨preflight_margin_eval,
    preflight_affordable (1/100) 60000 100 10 (6/10000) (15/10000) (1/1000)
      (1/1000) none (by norm_num) (by norm_num) (by norm_num) (by norm_num)
      (by norm_num) (3063/50) 600 preflight_margin_eval⟩

/-- Helper for C7: Python `float("0.8")` parses to 4/5. -/
theorem pyFloat_eval_08 : pyFloatOfString "0.8" = some (4/5) := by
  unfold pyFloatOfString
  simp [splitOnChar, mantissaToRat, digitsToNat]
  norm_num

/-- Helper for C7: Python `float("abc")` raises (`none`). -/
theorem pyFloat_eval_abc : pyFloatOfString "abc" = none := by
  unfold pyFloatOfString
  simp [splitOnChar, mantissaToRat, digitsToNat]

/-- Helper for C7: Python `float("1.9")` parses to 19/10. -/
theorem pyFloat_eval_19 : pyFloatOfString "1.9" = some (19/10) := by
  unfold pyFloatOfString
  simp [splitOnChar, mantissaToRat, digitsToNat]
  norm_num

/-- C7: applying the override `{"wonyotti": {"tp1_r": "0.8"}}` (a JSON
string) yields `PROFILES["wonyotti"].tp1_r = 0.8` as a number — the value is
coerced to the original field's float type; and an incompatible value
(`"abc"` for `tp1_r`) only fails that one field while the remaining override
(`tp2_r = "1.9"`) is still applied. -/
theorem config_override_coercion :
    ((apply_strategy_overrides [("wonyotti", [("tp1_r", .jstr "0.8")])]
        PROFILES).lookup "wonyotti").map (fun p => p.tp1_r) = some (4/5) ∧
    ((apply_strategy_overrides
        [("wonyotti", [("tp1_r", .jstr "abc"), ("tp2_r", .jstr "1.9")])]
        PROFILES).lookup "wonyotti").map (fun p => (p.tp1_r, p.tp2_r))
      = some (1, 19/10) := by
  constructor
  · simp [apply_strategy_overrides, PROFILES, updateTable, setField,
      pyFloat, pyFloat_eval_08, List.lookup]
  · simp [apply_strategy_overrides, PROFILES, updateTable, setField,
      pyFloat, pyFloat_eval_abc, pyFloat_eval_19, List.lookup]

/-- Helper for C2: `trailLeB` is reflexive. -/
theorem trailLeB_refl (o : Option ℚ) : trailLeB o o = true := by
  cases o <;> simp [trailLeB]

/-- Helper for C2: `trailLeB` is transitive. -/
theorem trailLeB_trans {a b c : Option ℚ} (h1 : trailLeB a b = true)
    (h2 : trailLeB b c = true) : trailLeB a c = true := by
  cases a <;> cases b <;> cases c <;> simp_all [trailLeB]
  exact le_trans h1 h2

/-- Helper for C2: `trailGeB` is reflexive. -/
theorem trailGeB_refl (o : Option ℚ) : trailGeB o o = true := by
  cases o <;> simp [trailGeB]

/-- Helper for C2: `trailGeB` is transitive. -/
theorem trailGeB_trans {a b c : Option ℚ} (h1 : trailGeB a b = true)
    (h2 : trailGeB b c = true) : trailGeB a c = true := by
  cases a <;> cases b <;> cases c <;> simp_all [trailGeB]
  exact le_trans h2 h1

/-- Helper for C2: `evaluate_and_act` never changes the position's side. -/
theorem eval_step_side (profile : ExitProfiles.ExitProfile)
    (ps : PositionState) (p a e : ℚ) :
    (evaluate_and_act profile ps p a e).2.side = ps.side := by
  unfold evaluate_and_act
  cases htr : ps.trail_price <;>
    split_ifs <;>
      simp_all [execute_tp, close_all,
        apply_ite (fun q : ExitDecision × PositionState => q.2.side)]

/-- Helper for C2: one non-closing `evaluate_and_act` call on a long
position with a stored trail that is not exactly 0 never lowers the trail. -/
theorem eval_step_long (profile : ExitProfiles.ExitProfile)
    (ps : PositionState) (p a e : ℚ)
    (hside : ps.side = "long") (hnz : trailNonZero ps = true)
    (hnc : (evaluate_and_act profile ps p a e).1.isClose = false) :
    trailLeB ps.trail_price (evaluate_and_act profile ps p a e).2.trail_price
      = true := by
  unfold evaluate_and_act at hnc ⊢
  cases htr : ps.trail_price with
  | none =>
    simp only [hside, htr] at hnc ⊢
    split_ifs at hnc ⊢ <;>
      simp_all [execute_tp, close_all, ExitDecision.isClose, trailLeB, htr,
        apply_ite (fun q : ExitDecision × PositionState => q.2.trail_price)]
  | some t =>
    have htne : t ≠ 0 := by
      unfold trailNonZero at hnz
      rw [htr] at hnz
      simpa using hnz
    simp only [hside, htr, if_neg htne] at hnc ⊢
    split_ifs at hnc ⊢ <;>
      simp_all [execute_tp, close_all, ExitDecision.isClose, trailLeB, htr,
        le_max_left,
        apply_ite (fun q : ExitDecision × PositionState => q.2.trail_price)]

/-- Helper for C2: the short-side counterpart of `eval_step_long`. -/
theorem eval_step_short (profile : ExitProfiles.ExitProfile)
    (ps : PositionState) (p a e : ℚ)
    (hside : ps.side = "short") (hnz : trailNonZero ps = true)
    (hnc : (evaluate_and_act profile ps p a e).1.isClose = false) :
    trailGeB ps.trail_price (evaluate_and_act profile ps p a e).2.trail_price
      = true := by
  unfold evaluate_and_act at hnc ⊢
  cases htr : ps.trail_price with
  | none =>
    simp only [hside, htr] at hnc ⊢
    split_ifs at hnc ⊢ <;>
      simp_all [execute_tp, close_all, ExitDecision.isClose, trailGeB, htr,
        apply_ite (fun q : ExitDecision × PositionState => q.2.trail_price)]
  | some t =>
    have htne : t ≠ 0 := by
      unfold trailNonZero at hnz
      rw [htr] at hnz
      simpa using hnz
    simp only [hside, htr, if_neg htne] at hnc ⊢
    split_ifs at hnc ⊢ <;>
      simp_all [execute_tp, close_all, ExitDecision.isClose, trailGeB, htr,
        min_le_left,
        apply_ite (fun q : ExitDecision × PositionState => q.2.trail_price)]

/-- C2, counterexample: on a long position with stored `trail_price = 0.0`,
a non-closing `evaluate_and_act` call *lowers* the stored trail (Python's
`ps.trail_price or -math.inf` treats the falsy value `0.0` as unset), so the
claimed unconditional monotonicity fails. -/
theorem trail_monotone_counterexample :
    (evaluate_and_act cexProfile cexPs 1 1 0).1.isClose = false ∧
    trailLeB cexPs.trail_price
      (evaluate_and_act cexProfile cexPs 1 1 0).2.trail_price = false := by
  have heval : evaluate_and_act cexProfile cexPs 1 1 0
      = (.hold, { cexPs with trail_price := some (-(5/2)) }) := by
    unfold evaluate_and_act cexProfile cexPs
    norm_num
  rw [heval]
  constructor
  · simp [ExitDecision.isClose]
  · simp [trailLeB, cexPs]

/-- C2, amended: across any sequence of `evaluate_and_act` calls on one
position in which no call closes the position *and the stored trail is never
exactly 0.0* (the value Python's `or`-fallback discards), the stored
`trail_price` is monotone: non-decreasing for a long position and
non-increasing for a short one. -/
theorem trail_monotone (profile : ExitProfiles.ExitProfile)
    (inputs : List (ℚ × ℚ × ℚ)) (ps : PositionState)
    (hok : (evalSeq profile ps inputs).2 = true) :
    (ps.side = "long" →
      trailLeB ps.trail_price (evalSeq profile ps inputs).1.trail_price = true) ∧
    (ps.side = "short" →
      trailGeB ps.trail_price (evalSeq profile ps inputs).1.trail_price = true) := by
  induction inputs generalizing ps with
  | nil =>
    constructor <;> intro _ <;> simp [evalSeq, trailLeB_refl, trailGeB_refl]
  | cons obs rest ih =>
    simp only [evalSeq, Bool.and_eq_true, Bool.not_eq_true'] at hok ⊢
    obtain ⟨⟨hnc, hnz⟩, htail⟩ := hok
    have hside2 := eval_step_side profile ps obs.1 obs.2.1 obs.2.2
    have ihr := ih _ htail
    constructor
    · intro hlong
      have hstep := eval_step_long profile ps obs.1 obs.2.1 obs.2.2 hlong hnz hnc
      exact trailLeB_trans hstep (ihr.1 (by rw [hside2, hlong]))
    · intro hshort
      have hstep := eval_step_short profile ps obs.1 obs.2.1 obs.2.2 hshort hnz hnc
      exact trailGeB_trans hstep (ihr.2 (by rw [hside2, hshort]))

/-- Helper for C2's witness: a concrete two-step run (rising EMA, prices
above the trail) closes nothing and keeps the trail nonzero. -/
theorem trail_monotone_witness_eval :
    (evalSeq cexProfile wPs [(10, 1, 10), (100, 1, 20)]).2 = true := by
  simp only [evalSeq]
  unfold evaluate_and_act cexProfile wPs
  norm_num [execute_tp, close_all, ExitDecision.isClose, trailNonZero]

/-- Witness for C2 (amended): on the concrete two-step run the stored trail
only rises. -/
theorem trail_monotone_witness :
    trailLeB wPs.trail_price
      (evalSeq cexProfile wPs [(10, 1, 10), (100, 1, 20)]).1.trail_price
      = true :=
  (trail_monotone cexProfile [(10, 1, 10), (100, 1, 20)] wPs
    trail_monotone_witness_eval).1 rfl

end Theorems
